import Mathlib

set_option autoImplicit false

namespace ETL

/-!
Shallow embedding of the ETL staging-and-reconciliation pipeline of the
repository (app/processors/base_etl_processor.py, po_processor.py,
acceptance_processor.py, app/models.py, app/services/file_service.py).
Strings are modelled as `List Char`; machine integers as `Int`/`Nat`;
Python `None`-able values as `Option`; Python exceptions as an explicit
`Except` layer over the pure functions.
-/

/-- Python exception kinds relevant to the coercers in
`BaseETLProcessor` (`decimal.InvalidOperation`, `ValueError`,
`OverflowError`, `TypeError`). -/
inductive PyExc where
  | invalidOperation
  | valueError
  | overflowError
  | typeError
  deriving DecidableEq

/-- Characters stripped by Python `str.strip()` (ASCII whitespace). -/
def isPySpace (c : Char) : Bool :=
  c == ' ' || c == '\t' || c == '\n' || c == '\r' || c == '\x0b' || c == '\x0c'

/-- Python `str.strip()`: drop leading and trailing whitespace. -/
def strTrim (s : List Char) : List Char :=
  ((s.dropWhile isPySpace).reverse.dropWhile isPySpace).reverse

/-- Python `str.strip('_')`. -/
def stripUnderscore (s : List Char) : List Char :=
  ((s.dropWhile (· == '_')).reverse.dropWhile (· == '_')).reverse

/-- Python `str.replace(a, b)` for single characters (all occurrences). -/
def replaceChar (a b : Char) (s : List Char) : List Char :=
  s.map (fun c => if c == a then b else c)

/-- Python `str.lower()` (ASCII fragment). -/
def strLower (s : List Char) : List Char :=
  s.map Char.toLower

/-- Numeric value of a decimal digit character. -/
def charDigitVal (c : Char) : Nat :=
  c.toNat - '0'.toNat

/-- Value of a string of decimal digits. -/
def digitsToNat (s : List Char) : Nat :=
  s.foldl (fun n c => 10 * n + charDigitVal c) 0

/-- Optional leading sign of a numeric literal; `true` means negative. -/
def parseSign : List Char → Bool × List Char
  | '+' :: r => (false, r)
  | '-' :: r => (true, r)
  | s => (false, s)

/-- Shared body of the Python `Decimal`/`float` numeric-string grammar:
`digits ['.' digits] [('e'|'E') [sign] digits]`, where at least one digit
must appear in the mantissa and the whole input must be consumed.
Returns the mantissa digits read as a natural number together with the
decimal exponent of the value. -/
def parseUnsignedNumeric (s : List Char) : Option (Nat × Int) :=
  let (ip, r1) := s.span Char.isDigit
  let (fpOpt, r2) :=
    match r1 with
    | '.' :: r => let (fp, r') := r.span Char.isDigit; (some fp, r')
    | _ => ((none : Option (List Char)), r1)
  let fp := fpOpt.getD []
  if ip.isEmpty && fp.isEmpty then none
  else
    let mant := digitsToNat (ip ++ fp)
    let fracLen : Int := (fp.length : Int)
    match r2 with
    | [] => some (mant, -fracLen)
    | c :: r3 =>
      if c == 'e' || c == 'E' then
        let (eneg, r4) := parseSign r3
        let (ed, r5) := r4.span Char.isDigit
        if ed.isEmpty || !r5.isEmpty then none
        else
          let ev : Int := (digitsToNat ed : Int)
          some (mant, (if eneg then -ev else ev) - fracLen)
      else none

/-- Python `decimal.Decimal` values, as far as the pipeline distinguishes
them: a finite value `m * 10 ^ e`, a signed infinity, or a (signaling)
NaN. -/
inductive Dec where
  | num (m : Int) (e : Int)
  | inf (neg : Bool)
  | nan
  | snan
  deriving DecidableEq

/-- Python `==` on `Decimal` values: numeric comparison for finite values
(`Decimal' 1000.50 == Decimal' 1000.5000`), sign comparison for
infinities, and `False` whenever a NaN is involved. -/
def Dec.pyEq : Dec → Dec → Bool
  | .num m1 e1, .num m2 e2 =>
    let e := min e1 e2
    m1 * (10 : Int) ^ (e1 - e).toNat == m2 * (10 : Int) ^ (e2 - e).toNat
  | .inf b1, .inf b2 => b1 == b2
  | _, _ => false

/-- The `decimal.Decimal` string constructor: strip surrounding
whitespace, then parse an optional sign followed by either a numeric
body, `Inf`/`Infinity`, `NaN` with optional diagnostic digits, or
`sNaN` with optional diagnostic digits (all case-insensitive).  `none`
models the constructor raising `InvalidOperation`. -/
def decimalOfString (s : List Char) : Option Dec :=
  let t := strTrim s
  let (neg, r) := parseSign t
  let rl := strLower r
  if rl == ("inf".data) || rl == ("infinity".data) then some (.inf neg)
  else if rl.take 4 == ("snan".data) && (rl.drop 4).all Char.isDigit then some .snan
  else if rl.take 3 == ("nan".data) && (rl.drop 3).all Char.isDigit then some .nan
  else
    match parseUnsignedNumeric r with
    | some (m, e) => some (.num (if neg then -(m : Int) else (m : Int)) e)
    | none => none

/-- Python `float` values as the pipeline distinguishes them; finite
values are kept exact as `m * 10 ^ e`. -/
inductive PyFloat where
  | fin (m : Int) (e : Int)
  | inf (neg : Bool)
  | nan
  deriving DecidableEq

/-- The Python `float` string constructor: strip whitespace, optional
sign, then `inf`/`infinity`/`nan` (case-insensitive, no diagnostic
digits) or a numeric body.  `none` models `ValueError`. -/
def floatOfString (s : List Char) : Option PyFloat :=
  let t := strTrim s
  let (neg, r) := parseSign t
  let rl := strLower r
  if rl == ("inf".data) || rl == ("infinity".data) then some (.inf neg)
  else if rl == ("nan".data) then some .nan
  else
    match parseUnsignedNumeric r with
    | some (m, e) => some (.fin (if neg then -(m : Int) else (m : Int)) e)
    | none => none

/-- Integer division of `m` by `n` truncating toward zero (the rounding
Python `int(float)` applies). -/
def truncDiv (m : Int) (n : Nat) : Int :=
  if 0 ≤ m then ((m.toNat / n : Nat) : Int) else -(((-m).toNat / n : Nat) : Int)

/-- Python `int()` applied to a float: truncates finite values toward
zero, raises `OverflowError` on infinities and `ValueError` on NaN. -/
def intOfFloat : PyFloat → Except PyExc Int
  | .fin m e =>
    if 0 ≤ e then .ok (m * (10 : Int) ^ e.toNat)
    else .ok (truncDiv m ((10 : Nat) ^ (-e).toNat))
  | .inf _ => .error .overflowError
  | .nan => .error .valueError

/-- A Python `try/except` block catching the exception kinds in
`caught`: a caught exception yields `None`, anything else propagates. -/
def tryExceptO {α : Type} (caught : List PyExc) (e : Except PyExc α) :
    Except PyExc (Option α) :=
  match e with
  | .ok a => .ok (some a)
  | .error exc => if caught.contains exc then .ok none else .error exc

/-- Exception-level model of the `Decimal` constructor (raises
`InvalidOperation` exactly when the grammar rejects the string). -/
def decimalCtorE (s : List Char) : Except PyExc Dec :=
  match decimalOfString s with
  | some d => .ok d
  | none => .error .invalidOperation

/-- Exception-level model of the `float` constructor (raises
`ValueError` exactly when the grammar rejects the string). -/
def floatCtorE (s : List Char) : Except PyExc PyFloat :=
  match floatOfString s with
  | some f => .ok f
  | none => .error .valueError

/-- The character cleanup `BaseETLProcessor.parse_decimal` applies
before calling `Decimal`: `str(value).strip().replace(',', '')
.replace(' ', '').replace('%', '')`. -/
def cleanDecimalInput (s : List Char) : List Char :=
  (strTrim s).filter (fun c => !(c == ',' || c == ' ' || c == '%'))

/-- `BaseETLProcessor.parse_decimal`, pure form: `None` for null/empty
input, otherwise the cleaned string through the `Decimal` constructor
with parse failure mapped to `None`. -/
def parse_decimal (v : Option (List Char)) : Option Dec :=
  match v with
  | none => none
  | some s => if s == [] then none else decimalOfString (cleanDecimalInput s)

/-- `BaseETLProcessor.parse_decimal` with its exception flow explicit:
`try: return Decimal(cleaned) except (InvalidOperation, ValueError):
return None`. -/
def parse_decimalE (v : Option (List Char)) : Except PyExc (Option Dec) :=
  match v with
  | none => .ok none
  | some s =>
    if s == [] then .ok none
    else tryExceptO [.invalidOperation, .valueError] (decimalCtorE (cleanDecimalInput s))

/-- `BaseETLProcessor.parse_integer`, pure form: `int(float(str(value)))`
with both failure modes mapped to `None`. -/
def parse_integer (v : Option (List Char)) : Option Int :=
  match v with
  | none => none
  | some s =>
    if s == [] then none
    else
      match floatOfString s with
      | none => none
      | some f =>
        match intOfFloat f with
        | .ok n => some n
        | .error _ => none

/-- `BaseETLProcessor.parse_integer` with its exception flow explicit:
`try: return int(float(str(value))) except (ValueError, OverflowError):
return None`. -/
def parse_integerE (v : Option (List Char)) : Except PyExc (Option Int) :=
  match v with
  | none => .ok none
  | some s =>
    if s == [] then .ok none
    else
      tryExceptO [.valueError, .overflowError]
        (match floatCtorE s with
         | .ok f => intOfFloat f
         | .error e => .error e)

/-- Result of Python `datetime.strptime` before `.date()` is applied. -/
structure PyDateTime where
  year : Nat
  month : Nat
  day : Nat
  hour : Nat
  minute : Nat
  second : Nat
  deriving DecidableEq

/-- A Python `datetime.date`. -/
structure PyDate where
  year : Nat
  month : Nat
  day : Nat
  deriving DecidableEq

/-- One directive of a `strptime` format string, restricted to the
directives appearing in `BaseETLProcessor.parse_date`'s format list. -/
inductive Dir where
  | yy
  | mo
  | dd
  | hh
  | mi
  | ss
  | lit (c : Char)
  deriving DecidableEq

/-- Match CPython's `%Y` pattern: exactly four digits. -/
def matchY : List Char → Option (Nat × List Char)
  | a :: b :: c :: d :: r =>
    if a.isDigit && b.isDigit && c.isDigit && d.isDigit then
      some (digitsToNat [a, b, c, d], r)
    else none
  | _ => none

/-- Match CPython's `%m` pattern `1[0-2]|0[1-9]|[1-9]`, alternatives
tried in order. -/
def matchMonth : List Char → Option (Nat × List Char)
  | a :: b :: r =>
    if a == '1' && (b == '0' || b == '1' || b == '2') then some (10 + charDigitVal b, r)
    else if a == '0' && b.isDigit && b != '0' then some (charDigitVal b, r)
    else if a.isDigit && a != '0' then some (charDigitVal a, b :: r)
    else none
  | [a] =>
    if a.isDigit && a != '0' then some (charDigitVal a, []) else none
  | [] => none

/-- Match CPython's `%d` pattern `3[01]|[12]\d|0[1-9]|[1-9]`,
alternatives tried in order. -/
def matchDay : List Char → Option (Nat × List Char)
  | a :: b :: r =>
    if a == '3' && (b == '0' || b == '1') then some (30 + charDigitVal b, r)
    else if (a == '1' || a == '2') && b.isDigit then
      some (10 * charDigitVal a + charDigitVal b, r)
    else if a == '0' && b.isDigit && b != '0' then some (charDigitVal b, r)
    else if a.isDigit && a != '0' then some (charDigitVal a, b :: r)
    else none
  | [a] =>
    if a.isDigit && a != '0' then some (charDigitVal a, []) else none
  | [] => none

/-- Match CPython's `%H` pattern `2[0-3]|[0-1]\d|\d`, alternatives tried
in order. -/
def matchHour : List Char → Option (Nat × List Char)
  | a :: b :: r =>
    if a == '2' && (b == '0' || b == '1' || b == '2' || b == '3') then
      some (20 + charDigitVal b, r)
    else if (a == '0' || a == '1') && b.isDigit then
      some (10 * charDigitVal a + charDigitVal b, r)
    else if a.isDigit then some (charDigitVal a, b :: r)
    else none
  | [a] =>
    if a.isDigit then some (charDigitVal a, []) else none
  | [] => none

/-- Match CPython's `%M`/`%S` pattern `[0-5]\d|\d`, alternatives tried
in order. -/
def matchMinSec : List Char → Option (Nat × List Char)
  | a :: b :: r =>
    if a.isDigit && charDigitVal a ≤ 5 && b.isDigit then
      some (10 * charDigitVal a + charDigitVal b, r)
    else if a.isDigit then some (charDigitVal a, b :: r)
    else none
  | [a] =>
    if a.isDigit then some (charDigitVal a, []) else none
  | [] => none

/-- Intermediate `strptime` state, initialized to CPython's defaults
(year 1900, month 1, day 1, midnight). -/
structure TimeParts where
  y : Nat := 1900
  m : Nat := 1
  d : Nat := 1
  h : Nat := 0
  mi : Nat := 0
  s : Nat := 0
  deriving DecidableEq

/-- Run a directive list against an input, requiring the whole input to
be consumed (CPython raises `ValueError` on trailing characters). -/
def runDirs : List Dir → List Char → TimeParts → Option TimeParts
  | [], [], t => some t
  | [], _ :: _, _ => none
  | dir :: ds, s, t =>
    match dir with
    | .lit c =>
      match s with
      | x :: r => if x == c then runDirs ds r t else none
      | [] => none
    | .yy => (matchY s).bind (fun p => runDirs ds p.2 { t with y := p.1 })
    | .mo => (matchMonth s).bind (fun p => runDirs ds p.2 { t with m := p.1 })
    | .dd => (matchDay s).bind (fun p => runDirs ds p.2 { t with d := p.1 })
    | .hh => (matchHour s).bind (fun p => runDirs ds p.2 { t with h := p.1 })
    | .mi => (matchMinSec s).bind (fun p => runDirs ds p.2 { t with mi := p.1 })
    | .ss => (matchMinSec s).bind (fun p => runDirs ds p.2 { t with s := p.1 })

/-- Gregorian leap-year rule used by `datetime`. -/
def isLeap (y : Nat) : Bool :=
  (y % 4 == 0 && y % 100 != 0) || y % 400 == 0

/-- Number of days in a month, as validated by the `datetime`
constructor. -/
def daysInMonth (y m : Nat) : Nat :=
  if m == 2 then (if isLeap y then 29 else 28)
  else if m == 4 || m == 6 || m == 9 || m == 11 then 30
  else 31

/-- `datetime.strptime` for one of the eight formats: regex match
followed by the `datetime` constructor's range validation (year at
least 1, day within the month; months, hours, minutes and seconds are
already range-limited by their patterns).  `none` models
`ValueError`. -/
def strptimeModel (fmt : List Dir) (s : List Char) : Option PyDateTime :=
  match runDirs fmt s {} with
  | none => none
  | some t =>
    if 1 ≤ t.y && 1 ≤ t.d && t.d ≤ daysInMonth t.y t.m then
      some ⟨t.y, t.m, t.d, t.h, t.mi, t.s⟩
    else none

/-- The format list of `BaseETLProcessor.parse_date`, in source order:
`%Y-%m-%d`, `%d/%m/%Y`, `%m/%d/%Y`, `%d-%m-%Y`, `%Y/%m/%d`, `%d.%m.%Y`,
`%Y-%m-%d %H:%M:%S`, `%m/%d/%Y %H:%M`. -/
def dateFormats : List (List Dir) :=
  [ [.yy, .lit '-', .mo, .lit '-', .dd],
    [.dd, .lit '/', .mo, .lit '/', .yy],
    [.mo, .lit '/', .dd, .lit '/', .yy],
    [.dd, .lit '-', .mo, .lit '-', .yy],
    [.yy, .lit '/', .mo, .lit '/', .dd],
    [.dd, .lit '.', .mo, .lit '.', .yy],
    [.yy, .lit '-', .mo, .lit '-', .dd, .lit ' ', .hh, .lit ':', .mi, .lit ':', .ss],
    [.mo, .lit '/', .dd, .lit '/', .yy, .lit ' ', .hh, .lit ':', .mi] ]

/-- `BaseETLProcessor.parse_date`, pure form: null/blank input gives
`None`; otherwise the stripped string is tried against each format in
order, the first success wins and is narrowed to a date; `None` if no
format matches. -/
def parse_date (v : Option (List Char)) : Option PyDate :=
  match v with
  | none => none
  | some s =>
    if s == [] then none
    else
      let t := strTrim s
      if t == [] then none
      else
        (dateFormats.findSome? (fun f => strptimeModel f t)).map
          (fun dt => ⟨dt.year, dt.month, dt.day⟩)

/-- Exception-level model of `datetime.strptime` (raises `ValueError`
exactly on match or validation failure). -/
def strptimeE (fmt : List Dir) (s : List Char) : Except PyExc PyDateTime :=
  match strptimeModel fmt s with
  | some dt => .ok dt
  | none => .error .valueError

/-- The format loop of `parse_date` with its exception flow explicit:
each iteration catches `ValueError` and continues; any other exception
would propagate. -/
def parse_dateLoopE (t : List Char) : List (List Dir) → Except PyExc (Option PyDate)
  | [] => .ok none
  | f :: fs =>
    match strptimeE f t with
    | .ok dt => .ok (some ⟨dt.year, dt.month, dt.day⟩)
    | .error e => if e == .valueError then parse_dateLoopE t fs else .error e

/-- `BaseETLProcessor.parse_date` with its exception flow explicit. -/
def parse_dateE (v : Option (List Char)) : Except PyExc (Option PyDate) :=
  match v with
  | none => .ok none
  | some s =>
    if s == [] then .ok none
    else
      let t := strTrim s
      if t == [] then .ok none
      else parse_dateLoopE t dateFormats

/-- `BaseETLProcessor.safe_string_truncate`: null/empty input gives
`None`; otherwise strip, truncate to `max_length` when one is given,
is nonzero and exceeded, and map a resulting empty string to `None`. -/
def safe_string_truncate (v : Option (List Char)) (maxLength : Option Nat) :
    Option (List Char) :=
  match v with
  | none => none
  | some s =>
    if s == [] then none
    else
      let t := strTrim s
      match maxLength with
      | some l =>
        if l != 0 && t.length > l then some (t.take l)
        else if t == [] then none else some t
      | none => if t == [] then none else some t

/-- `BaseETLProcessor.safe_string_truncate` seen through the exception
layer: the function performs no fallible call, so it is `ok` by
construction. -/
def safe_string_truncateE (v : Option (List Char)) (maxLength : Option Nat) :
    Except PyExc (Option (List Char)) :=
  .ok (safe_string_truncate v maxLength)

/-- Python `str.replace("__", "_")`: one left-to-right pass replacing
each non-overlapping pair of underscores by a single underscore. -/
def replaceDoubleUnderscore : List Char → List Char
  | '_' :: '_' :: r => '_' :: replaceDoubleUnderscore r
  | c :: r => c :: replaceDoubleUnderscore r
  | [] => []

/-- `BaseETLProcessor.normalize_column_name`:
`col_name.strip().lower().replace(' ', '_').replace('(', '_')
.replace(')', '_').replace('__', '_').strip('_')`. -/
def normalize_column_name (s : List Char) : List Char :=
  stripUnderscore (replaceDoubleUnderscore
    (replaceChar ')' '_' (replaceChar '(' '_' (replaceChar ' ' '_'
      (strLower (strTrim s))))))

/-- A pandas `DataFrame` as `map_csv_columns` observes it: the ordered
header/column pairs plus the row count (all cells are optional
strings). -/
structure PyDF where
  cols : List (List Char × List (Option (List Char)))
  nrows : Nat
  deriving DecidableEq

/-- Column lookup `df[name]`, returning the first column carrying the
label. -/
def dfLookup (df : PyDF) (name : List Char) : Option (List (Option (List Char))) :=
  (df.cols.find? (fun p => p.1 == name)).map (·.2)

/-- `BaseETLProcessor.map_csv_columns`: normalize every header, then
build the mapped frame field by field from the static column mapping —
the source column when the normalized header is present, a column of
nulls otherwise; source columns not in the mapping are dropped. -/
def map_csv_columns (mapping : List (List Char × List Char)) (df : PyDF) : PyDF :=
  let df' : PyDF := ⟨df.cols.map (fun p => (normalize_column_name p.1, p.2)), df.nrows⟩
  ⟨mapping.map (fun m =>
      (m.2, match dfLookup df' m.1 with
            | some c => c
            | none => List.replicate df.nrows none)),
    df.nrows⟩

/-- Python's substring test `needle in hay`. -/
def containsSub (needle : List Char) : List Char → Bool
  | [] => needle.isEmpty
  | c :: t => needle.isPrefixOf (c :: t) || containsSub needle t

/-- `POProcessor._map_project_to_account_name`: `None`/empty gives
`Other`; otherwise case-insensitive substring rules checked in order
(`iam`, `orange`, `inwi`), defaulting to `Other`. -/
def map_project_to_account_name (projectName : Option (List Char)) : List Char :=
  match projectName with
  | none => "Other".data
  | some s =>
    if s == [] then "Other".data
    else
      let l := strLower s
      if containsSub ("iam".data) l then "IAM Account".data
      else if containsSub ("orange".data) l then "Orange Account".data
      else if containsSub ("inwi".data) l then "INWI Account".data
      else "Other".data

/-- The project-name cleanup at the top of
`POProcessor._get_or_create_account`:
`(project_name or "Unknown Project").strip()` — the placeholder is
substituted only when the name is `None` or the empty string (falsy),
then the result is stripped. -/
def cleanProjectName (projectName : Option (List Char)) : List Char :=
  match projectName with
  | none => strTrim ("Unknown Project".data)
  | some s => if s == [] then strTrim ("Unknown Project".data) else strTrim s

/-- A database cell / ORM attribute value: the typed values that reach
`purchase_orders` and `acceptances` columns, plus Python `None`. -/
inductive Value where
  | none
  | str (s : List Char)
  | int (n : Int)
  | dec (d : Dec)
  | date (d : PyDate)
  | time (t : Nat)
  | uuid (n : Nat)
  | bool (b : Bool)
  deriving DecidableEq

/-- Python `==` on attribute values, as used by the changed-field
comparison `v != new_values.get(k)`: `None == None` is `True`, decimals
compare numerically (and NaN is unequal to everything), values of
different kinds are unequal. -/
def Value.pyEq : Value → Value → Bool
  | .none, .none => true
  | .str a, .str b => a == b
  | .int a, .int b => a == b
  | .dec a, .dec b => a.pyEq b
  | .date a, .date b => a == b
  | .time a, .time b => a == b
  | .uuid a, .uuid b => a == b
  | .bool a, .bool b => a == b
  | _, _ => false

/-- An ORM object's attribute dictionary (`__dict__` without the
`_`-prefixed bookkeeping entries), in insertion order. -/
abbrev Attrs := List (List Char × Value)

/-- Attribute read (`getattr`); unset column attributes read as
`None`. -/
def getAttr (a : Attrs) (k : List Char) : Value :=
  (List.lookup k a).getD .none

/-- Attribute write (`setattr`): overwrite an existing binding in place
or append a new one. -/
def setAttr (a : Attrs) (k : List Char) (v : Value) : Attrs :=
  if a.any (fun p => p.1 == k) then
    a.map (fun p => if p.1 == k then (k, v) else p)
  else a ++ [(k, v)]

/-- Lift an optional string to an attribute value. -/
def vstr : Option (List Char) → Value
  | some s => .str s
  | none => .none

/-- Lift an optional integer to an attribute value. -/
def vint : Option Int → Value
  | some n => .int n
  | none => .none

/-- Lift an optional decimal to an attribute value. -/
def vdec : Option Dec → Value
  | some d => .dec d
  | none => .none

/-- Lift an optional date to an attribute value. -/
def vdate : Option PyDate → Value
  | some d => .date d
  | none => .none

/-- A `po_staging` row (`POStaging` in app/models.py): scoping and
lifecycle metadata plus the raw string business fields exactly as
staged.  `validation_errors` keeps the stored error messages (the
reconciliation engine writes `[{error: message}]`, modelled as the list
of messages). -/
structure POStagingRow where
  staging_id : Nat
  user_id : Nat := 0
  batch_id : Nat := 0
  row_number : Nat := 1
  is_processed : Bool := false
  is_valid : Bool := true
  validation_errors : List (List Char) := []
  processed_at : Option Nat := none
  po_number : Option (List Char) := none
  po_line_no : Option (List Char) := none
  project_name : Option (List Char) := none
  project_code : Option (List Char) := none
  site_name : Option (List Char) := none
  site_code : Option (List Char) := none
  item_code : Option (List Char) := none
  item_description : Option (List Char) := none
  item_description_local : Option (List Char) := none
  unit_price : Option (List Char) := none
  requested_qty : Option (List Char) := none
  due_qty : Option (List Char) := none
  billed_qty : Option (List Char) := none
  quantity_cancel : Option (List Char) := none
  line_amount : Option (List Char) := none
  unit : Option (List Char) := none
  currency : Option (List Char) := none
  tax_rate : Option (List Char) := none
  po_status : Option (List Char) := none
  payment_terms : Option (List Char) := none
  payment_method : Option (List Char) := none
  customer : Option (List Char) := none
  rep_office : Option (List Char) := none
  subcontract_no : Option (List Char) := none
  pr_no : Option (List Char) := none
  sales_contract_no : Option (List Char) := none
  version_no : Option (List Char) := none
  shipment_no : Option (List Char) := none
  engineering_code : Option (List Char) := none
  engineering_name : Option (List Char) := none
  subproject_code : Option (List Char) := none
  category : Option (List Char) := none
  center_area : Option (List Char) := none
  product_category : Option (List Char) := none
  bidding_area : Option (List Char) := none
  bill_to : Option (List Char) := none
  ship_to : Option (List Char) := none
  note_to_receiver : Option (List Char) := none
  ff_buyer : Option (List Char) := none
  fob_lookup_code : Option (List Char) := none
  publish_date : Option (List Char) := none
  start_date : Option (List Char) := none
  end_date : Option (List Char) := none
  expire_date : Option (List Char) := none
  acceptance_date : Option (List Char) := none
  acceptance_date_1 : Option (List Char) := none
  change_history : Option (List Char) := none
  pr_po_automation : Option (List Char) := none
  deriving DecidableEq

/-- `POProcessor._create_po_from_staging`: the attribute dictionary of
the freshly constructed `PurchaseOrder`, every business field coerced
from the raw staging strings, in the constructor's keyword order.  The
first argument is the `user_id` value passed in (`user_uuid` on insert,
`po.user_id` on update). -/
def createPoFromStaging (uid : Value) (st : POStagingRow) : Attrs :=
  [ ("user_id".data, uid),
    ("po_number".data, vstr (safe_string_truncate st.po_number (some 100))),
    ("po_line_no".data, vstr (safe_string_truncate st.po_line_no (some 50))),
    ("project_name".data, vstr (safe_string_truncate st.project_name (some 255))),
    ("project_code".data, vstr (safe_string_truncate st.project_code (some 100))),
    ("site_name".data, vstr (safe_string_truncate st.site_name (some 255))),
    ("site_code".data, vstr (safe_string_truncate st.site_code (some 100))),
    ("item_code".data, vstr (safe_string_truncate st.item_code (some 100))),
    ("item_description".data, vstr st.item_description),
    ("item_description_local".data, vstr st.item_description_local),
    ("unit_price".data, vdec (parse_decimal st.unit_price)),
    ("requested_qty".data, vint (parse_integer st.requested_qty)),
    ("due_qty".data, vint (parse_integer st.due_qty)),
    ("billed_qty".data, vint (parse_integer st.billed_qty)),
    ("quantity_cancel".data, vint (parse_integer st.quantity_cancel)),
    ("line_amount".data, vdec (parse_decimal st.line_amount)),
    ("unit".data, vstr (safe_string_truncate st.unit (some 50))),
    ("currency".data, vstr (safe_string_truncate st.currency (some 10))),
    ("tax_rate".data, vdec (parse_decimal st.tax_rate)),
    ("po_status".data, vstr (safe_string_truncate st.po_status (some 50))),
    ("payment_terms".data, vstr (safe_string_truncate st.payment_terms (some 255))),
    ("payment_method".data, vstr (safe_string_truncate st.payment_method (some 100))),
    ("customer".data, vstr (safe_string_truncate st.customer (some 255))),
    ("rep_office".data, vstr (safe_string_truncate st.rep_office (some 255))),
    ("subcontract_no".data, vstr (safe_string_truncate st.subcontract_no (some 100))),
    ("pr_no".data, vstr (safe_string_truncate st.pr_no (some 100))),
    ("sales_contract_no".data, vstr (safe_string_truncate st.sales_contract_no (some 100))),
    ("version_no".data, vstr (safe_string_truncate st.version_no (some 50))),
    ("shipment_no".data, vstr (safe_string_truncate st.shipment_no (some 100))),
    ("engineering_code".data, vstr (safe_string_truncate st.engineering_code (some 100))),
    ("engineering_name".data, vstr (safe_string_truncate st.engineering_name (some 255))),
    ("subproject_code".data, vstr (safe_string_truncate st.subproject_code (some 100))),
    ("category".data, vstr (safe_string_truncate st.category (some 255))),
    ("center_area".data, vstr (safe_string_truncate st.center_area (some 255))),
    ("product_category".data, vstr (safe_string_truncate st.product_category (some 255))),
    ("bidding_area".data, vstr (safe_string_truncate st.bidding_area (some 255))),
    ("bill_to".data, vstr st.bill_to),
    ("ship_to".data, vstr st.ship_to),
    ("note_to_receiver".data, vstr st.note_to_receiver),
    ("ff_buyer".data, vstr (safe_string_truncate st.ff_buyer (some 255))),
    ("fob_lookup_code".data, vstr (safe_string_truncate st.fob_lookup_code (some 100))),
    ("publish_date".data, vdate (parse_date st.publish_date)),
    ("start_date".data, vdate (parse_date st.start_date)),
    ("end_date".data, vdate (parse_date st.end_date)),
    ("expire_date".data, vdate (parse_date st.expire_date)),
    ("acceptance_date".data, vdate (parse_date st.acceptance_date)),
    ("acceptance_date_1".data, vdate (parse_date st.acceptance_date_1)),
    ("change_history".data, vstr st.change_history),
    ("pr_po_automation".data, vstr st.pr_po_automation) ]

/-- The columns of `purchase_orders` (`PurchaseOrder.__table__.columns`
in app/models.py), in declaration order — the key set iterated by
`POProcessor._get_record_dict` and hence by the changed-field
comparison. -/
def poTableColumns : List (List Char) :=
  [ "id".data, "user_id".data, "po_number".data, "po_line_no".data,
    "project_name".data, "project_code".data, "site_name".data, "site_code".data,
    "item_code".data, "item_description".data, "item_description_local".data,
    "unit_price".data, "requested_qty".data, "due_qty".data, "billed_qty".data,
    "quantity_cancel".data, "line_amount".data, "unit".data, "currency".data,
    "tax_rate".data, "po_status".data, "payment_terms".data, "payment_method".data,
    "customer".data, "rep_office".data, "subcontract_no".data, "pr_no".data,
    "sales_contract_no".data, "version_no".data, "shipment_no".data,
    "engineering_code".data, "engineering_name".data, "subproject_code".data,
    "category".data, "center_area".data, "product_category".data,
    "bidding_area".data, "bill_to".data, "ship_to".data, "note_to_receiver".data,
    "ff_buyer".data, "fob_lookup_code".data, "publish_date".data, "start_date".data,
    "end_date".data, "expire_date".data, "acceptance_date".data,
    "acceptance_date_1".data, "change_history".data, "pr_po_automation".data,
    "status".data, "created_at".data, "updated_at".data ]

/-- `POProcessor._get_record_dict`: snapshot of every table column's
current attribute value. -/
def getRecordDict (po : Attrs) : Attrs :=
  poTableColumns.map (fun c => (c, getAttr po c))

/-- `POProcessor._update_po_from_staging`: copy every (non-`_`)
attribute of a freshly built `PurchaseOrder` onto the existing row —
reading the `user_id` from the row itself — then stamp
`updated_at = datetime.utcnow()`. -/
def updatePoFromStaging (po : Attrs) (st : POStagingRow) (now : Nat) : Attrs :=
  setAttr
    ((createPoFromStaging (getAttr po ("user_id".data)) st).foldl
      (fun acc p => setAttr acc p.1 p.2) po)
    ("updated_at".data) (.time now)

/-- The changed-field computation of `POProcessor.transform_and_load`:
`[k for k, v in old_values.items() if v != new_values.get(k)]`. -/
def changedFields (oldV newV : Attrs) : List (List Char) :=
  (oldV.map Prod.fst).filter (fun k => !(Value.pyEq (getAttr oldV k) (getAttr newV k)))

/-- An `accounts` row (`Account` in app/models.py), restricted to the
columns the pipeline reads or writes. -/
structure AccountRow where
  id : Nat
  user_id : Nat
  account_name : List Char
  project_name : List Char
  needs_review : Bool
  deriving DecidableEq

/-- A `po_audit_log` row (`POAuditLog` in app/models.py); the value
snapshots are kept as the attribute dictionaries handed to
`serialize_for_json` (JSON encoding itself is a storage detail). -/
structure AuditEntry where
  user_id : Nat
  batch_id : Nat
  po_number : Value
  po_line_no : Value
  action : List Char
  old_values : Option Attrs
  new_values : Attrs
  changed_fields : Option (List (List Char))
  deriving DecidableEq

/-- An `acceptance_staging` row (`AcceptanceStaging` in app/models.py):
metadata plus the raw string fields read by
`AcceptanceProcessor._create_acceptance_from_staging`. -/
structure AccStagingRow where
  staging_id : Nat
  user_id : Nat := 0
  batch_id : Nat := 0
  row_number : Nat := 1
  is_processed : Bool := false
  is_valid : Bool := true
  validation_errors : List (List Char) := []
  acceptance_no : Option (List Char) := none
  status : Option (List Char) := none
  rejected_reason : Option (List Char) := none
  po_number : Option (List Char) := none
  po_line_no : Option (List Char) := none
  shipment_no : Option (List Char) := none
  item_description : Option (List Char) := none
  item_description_local : Option (List Char) := none
  project_code : Option (List Char) := none
  project_name : Option (List Char) := none
  site_code : Option (List Char) := none
  site_name : Option (List Char) := none
  site_id : Option (List Char) := none
  engineering_code : Option (List Char) := none
  business_type : Option (List Char) := none
  product_category : Option (List Char) := none
  requested_qty : Option (List Char) := none
  acceptance_qty : Option (List Char) := none
  unit_price : Option (List Char) := none
  milestone_type : Option (List Char) := none
  acceptance_milestone : Option (List Char) := none
  cancel_remaining_qty : Option (List Char) := none
  bidding_area : Option (List Char) := none
  customer : Option (List Char) := none
  rep_office : Option (List Char) := none
  unit : Option (List Char) := none
  subproject_code : Option (List Char) := none
  engineering_category : Option (List Char) := none
  center_area : Option (List Char) := none
  planned_completion_date : Option (List Char) := none
  actual_completion_date : Option (List Char) := none
  approver : Option (List Char) := none
  current_handler : Option (List Char) := none
  approval_progress : Option (List Char) := none
  isdp_project : Option (List Char) := none
  application_submitted : Option (List Char) := none
  application_processed : Option (List Char) := none
  header_remarks : Option (List Char) := none
  remarks : Option (List Char) := none
  service_code : Option (List Char) := none
  payment_percentage : Option (List Char) := none
  deriving DecidableEq

/-- `AcceptanceProcessor._create_acceptance_from_staging`: the attribute
dictionary of the freshly constructed `Acceptance`, in the
constructor's keyword order. -/
def createAcceptanceFromStaging (userId : Nat) (st : AccStagingRow) : Attrs :=
  [ ("user_id".data, .uuid userId),
    ("acceptance_no".data, vstr (safe_string_truncate st.acceptance_no (some 100))),
    ("status".data, vstr (safe_string_truncate st.status (some 50))),
    ("rejected_reason".data, vstr st.rejected_reason),
    ("po_number".data, vstr (safe_string_truncate st.po_number (some 100))),
    ("po_line_no".data, vstr (safe_string_truncate st.po_line_no (some 50))),
    ("shipment_no".data, vint (parse_integer st.shipment_no)),
    ("item_description".data, vstr st.item_description),
    ("item_description_local".data, vstr st.item_description_local),
    ("project_code".data, vstr (safe_string_truncate st.project_code (some 100))),
    ("project_name".data, vstr (safe_string_truncate st.project_name (some 255))),
    ("site_code".data, vstr (safe_string_truncate st.site_code (some 100))),
    ("site_name".data, vstr (safe_string_truncate st.site_name (some 255))),
    ("site_id".data, vstr (safe_string_truncate st.site_id (some 255))),
    ("engineering_code".data, vstr (safe_string_truncate st.engineering_code (some 100))),
    ("business_type".data, vstr st.business_type),
    ("product_category".data, vstr st.product_category),
    ("requested_qty".data, vint (parse_integer st.requested_qty)),
    ("acceptance_qty".data, vint (parse_integer st.acceptance_qty)),
    ("unit_price".data, vdec (parse_decimal st.unit_price)),
    ("milestone_type".data, vstr (safe_string_truncate st.milestone_type (some 100))),
    ("acceptance_milestone".data, vstr (safe_string_truncate st.acceptance_milestone (some 100))),
    ("cancel_remaining_qty".data, vstr st.cancel_remaining_qty),
    ("bidding_area".data, vstr (safe_string_truncate st.bidding_area (some 255))),
    ("customer".data, vstr st.customer),
    ("rep_office".data, vstr (safe_string_truncate st.rep_office (some 255))),
    ("unit".data, vstr (safe_string_truncate st.unit (some 50))),
    ("subproject_code".data, vstr (safe_string_truncate st.subproject_code (some 100))),
    ("engineering_category".data, vstr (safe_string_truncate st.engineering_category (some 255))),
    ("center_area".data, vstr (safe_string_truncate st.center_area (some 255))),
    ("planned_completion_date".data, vdate (parse_date st.planned_completion_date)),
    ("actual_completion_date".data, vdate (parse_date st.actual_completion_date)),
    ("approver".data, vstr (safe_string_truncate st.approver (some 255))),
    ("current_handler".data, vstr st.current_handler),
    ("approval_progress".data, vstr (safe_string_truncate st.approval_progress (some 100))),
    ("isdp_project".data, vstr (safe_string_truncate st.isdp_project (some 100))),
    ("application_submitted".data, vdate (parse_date st.application_submitted)),
    ("application_processed".data, vdate (parse_date st.application_processed)),
    ("header_remarks".data, vstr st.header_remarks),
    ("remarks".data, vstr st.remarks),
    ("service_code".data, vdec (parse_decimal st.service_code)),
    ("payment_percentage".data, vstr (safe_string_truncate st.payment_percentage (some 50))),
    ("record_status".data, .str ("active".data)) ]

/-- An `upload_history` row (`UploadHistory` in app/models.py). -/
structure UploadRow where
  user_id : Nat
  file_name : List Char
  file_type : List Char
  total_rows : Nat
  status : List Char
  deriving DecidableEq

/-- The database tables the pipeline touches, plus a surrogate-id
source abstracting `uuid4`/sequence generation. -/
structure DB where
  pos : List Attrs := []
  accounts : List AccountRow := []
  audits : List AuditEntry := []
  poStaging : List POStagingRow := []
  acceptances : List Attrs := []
  accStaging : List AccStagingRow := []
  uploads : List UploadRow := []
  nextId : Nat := 1
  deriving DecidableEq

/-- A SQLAlchemy session over the database: the in-transaction view
(`current`), the last committed state, and the number of commits
performed. -/
structure Session where
  committed : DB
  current : DB
  commits : Nat := 0
  deriving DecidableEq

/-- `db.commit()`. -/
def Session.commit (s : Session) : Session :=
  { s with committed := s.current, commits := s.commits + 1 }

/-- `db.rollback()`: discard every pending change since the last
commit. -/
def Session.rollback (s : Session) : Session :=
  { s with current := s.committed }

/-- A session whose transaction has no pending work on top of `d`. -/
def sessionOf (d : DB) : Session :=
  ⟨d, d, 0⟩

/-- Replace the first element satisfying `p` (the object returned by
`.first()` and mutated in place). -/
def replaceFirst {α : Type} (p : α → Bool) (f : α → α) : List α → List α
  | [] => []
  | x :: xs => if p x then f x :: xs else x :: replaceFirst p f xs

/-- `POProcessor._get_or_create_account`, acting on the in-transaction
database view: clean the project name, look up `(user_id,
project_name)`, and when absent add a classified `Account` row (the
`flush` makes its generated id visible inside the transaction). -/
def getOrCreateAccountDB (d : DB) (userId : Nat) (projectName : Option (List Char)) : DB :=
  let clean := cleanProjectName projectName
  if d.accounts.any (fun a => a.user_id == userId && a.project_name == clean) then d
  else
    let accountName := map_project_to_account_name (some clean)
    let needsReview := accountName == "Other".data
    { d with
      accounts := d.accounts ++ [⟨d.nextId, userId, accountName, clean, needsReview⟩],
      nextId := d.nextId + 1 }

/-- Update the staging row with the given id. -/
def updatePoStaging (d : DB) (sid : Nat) (f : POStagingRow → POStagingRow) : DB :=
  { d with poStaging := d.poStaging.map (fun r => if r.staging_id == sid then f r else r) }

/-- Defaults materialized on a new `PurchaseOrder` once it is flushed:
client-side defaults `id` (uuid4) and `status='active'`, and the
server-side `created_at`/`updated_at` timestamps that become visible on
the post-flush attribute reads of `_get_record_dict`. -/
def flushPoDefaults (po : Attrs) (newId now : Nat) : Attrs :=
  setAttr (setAttr (setAttr (setAttr po ("id".data) (.uuid newId))
    ("status".data) (.str ("active".data)))
    ("created_at".data) (.time now))
    ("updated_at".data) (.time now)

/-- The key predicate of the existing-PO lookup in
`POProcessor.transform_and_load`: `(user_id, po_number, po_line_no)`. -/
def poKeyMatch (userId : Nat) (poNum poLine : Value) (po : Attrs) : Bool :=
  Value.pyEq (getAttr po ("user_id".data)) (.uuid userId) &&
  Value.pyEq (getAttr po ("po_number".data)) poNum &&
  Value.pyEq (getAttr po ("po_line_no".data)) poLine

/-- The try-block body of `POProcessor.transform_and_load` for one
staging row: ensure the account, upsert the `PurchaseOrder` with
change detection and audit logging, and mark the staging row
processed. -/
def poProcessRow (userId batchId now : Nat) (d : DB) (st : POStagingRow) : DB :=
  let d1 := getOrCreateAccountDB d userId st.project_name
  let poNum := vstr (safe_string_truncate st.po_number (some 100))
  let poLine := vstr (safe_string_truncate st.po_line_no (some 50))
  let d3 :=
    match d1.pos.find? (poKeyMatch userId poNum poLine) with
    | some po =>
      let oldV := getRecordDict po
      let po' := updatePoFromStaging po st now
      let newV := getRecordDict po'
      let ch := changedFields oldV newV
      let d2 := { d1 with pos := replaceFirst (poKeyMatch userId poNum poLine) (fun _ => po') d1.pos }
      if ch.isEmpty then d2
      else { d2 with audits := d2.audits ++
              [⟨userId, batchId, poNum, poLine, "UPDATE".data, some oldV, newV, some ch⟩] }
    | none =>
      let flushed := flushPoDefaults (createPoFromStaging (.uuid userId) st) d1.nextId now
      { d1 with
        pos := d1.pos ++ [flushed],
        nextId := d1.nextId + 1,
        audits := d1.audits ++
          [⟨userId, batchId, poNum, poLine, "INSERT".data, none, getRecordDict flushed, none⟩] }
  updatePoStaging d3 st.staging_id
    (fun r => { r with is_processed := true, processed_at := some now })

/-- The staging rows `POProcessor.transform_and_load` fetches: the
user's valid, unprocessed rows of the current batch. -/
def validPoStagingRows (d : DB) (userId batchId : Nat) : List POStagingRow :=
  d.poStaging.filter (fun r =>
    r.user_id == userId && r.batch_id == batchId && r.is_valid && !r.is_processed)

/-- One iteration of the row loop in `POProcessor.transform_and_load`.
`raiseOn` is the exception environment: `raiseOn sid = some msg` means
upserting the staging row `sid` raises an exception with message `msg`
(a constraint violation, for example).  On such a row the handler rolls
the transaction back, marks just that row processed-and-invalid with
`[{error: msg}]`, and commits that correction; otherwise the row is
upserted in the open transaction. -/
def poLoopStep (raiseOn : Nat → Option (List Char)) (userId batchId now : Nat)
    (acc : Session) (sid : Nat) : Session :=
  match raiseOn sid with
  | some msg =>
    let acc1 := acc.rollback
    let acc2 := { acc1 with current := (updatePoStaging acc1.current sid
      (fun r => { r with is_processed := true, is_valid := false,
                         validation_errors := [msg] })) }
    acc2.commit
  | none =>
    match acc.current.poStaging.find? (fun r => r.staging_id == sid) with
    | some st => { acc with current := poProcessRow userId batchId now acc.current st }
    | none => acc

/-- `POProcessor.transform_and_load`: fetch the ids of the batch's
valid unprocessed staging rows once, run the row loop over them, and
close the batch with one final commit, returning true. -/
def transformAndLoadPO (raiseOn : Nat → Option (List Char)) (userId batchId now : Nat)
    (s : Session) : Session × Bool :=
  let ids := (validPoStagingRows s.current userId batchId).map (·.staging_id)
  let sFinal := ids.foldl (poLoopStep raiseOn userId batchId now) s
  (sFinal.commit, true)

/-- The unconditional per-tenant delete at the top of
`AcceptanceProcessor.transform_and_load`. -/
def deleteAcceptancesForUser (d : DB) (userId : Nat) : DB :=
  { d with acceptances := (d.acceptances.filter
      (fun a => !(Value.pyEq (getAttr a ("user_id".data)) (.uuid userId)))) }

/-- The staging rows `AcceptanceProcessor.transform_and_load` fetches:
the user's valid, unprocessed rows of the current batch. -/
def validAccStagingRows (d : DB) (userId batchId : Nat) : List AccStagingRow :=
  d.accStaging.filter (fun r =>
    r.user_id == userId && r.batch_id == batchId && r.is_valid && !r.is_processed)

/-- The per-row body of the insert loop in
`AcceptanceProcessor.transform_and_load`: construct and add one new
`Acceptance`; a per-row exception (`raiseOn st.staging_id = some msg`)
is logged and the row skipped, without touching the staging row. -/
def accRowStep (raiseOn : Nat → Option (List Char)) (userId : Nat)
    (acc : Session) (st : AccStagingRow) : Session :=
  match raiseOn st.staging_id with
  | some _ => acc
  | none =>
    { acc with current := { acc.current with
        acceptances := (acc.current.acceptances ++ [createAcceptanceFromStaging userId st]) } }

/-- `AcceptanceProcessor.transform_and_load`: delete every acceptance
of the tenant and commit immediately; then fetch the batch's valid
staging rows and run the per-row insert loop; then commit once more and
return true.  `fetchFails` injects a batch-level exception at the
staging query (after the delete was committed): the handler rolls back
the open transaction and returns false. -/
def transformAndLoadAcc (raiseOn : Nat → Option (List Char)) (fetchFails : Bool)
    (userId batchId : Nat) (s : Session) : Session × Bool :=
  let s1 := { s with current := deleteAcceptancesForUser s.current userId }
  let s2 := s1.commit
  if fetchFails then (s2.rollback, false)
  else
    let rows := validAccStagingRows s2.current userId batchId
    let sFinal := rows.foldl (accRowStep raiseOn userId) s2
    (sFinal.commit, true)

/-- The processor statistics relevant to upload-status derivation
(`BaseETLProcessor.stats`). -/
structure Stats where
  total_rows : Nat := 0
  processed_rows : Nat := 0
  failed_rows : Nat := 0
  deriving DecidableEq

/-- Outcome of `BaseETLProcessor.load_csv` for an acceptance upload,
abstracting the file reading: whether the load returned true, the
stats counters it accumulated, and the staging rows it committed
(empty when the load failed and rolled back). -/
structure AccLoadOutcome where
  ok : Bool
  stats : Stats
  stagedRows : List AccStagingRow
  deriving DecidableEq

/-- Outcome of `BaseETLProcessor.load_csv` for a PO upload. -/
structure POLoadOutcome where
  ok : Bool
  stats : Stats
  stagedRows : List POStagingRow
  deriving DecidableEq

/-- `process_user_acceptance_csv` (acceptance_processor.py): run the
loader then, when it succeeded, the reconciliation; derive the upload
status (`success` when both succeeded, `partial` when some rows were
processed despite a failure, `failed` otherwise); and persist exactly
one `UploadHistory` row.  `exc` injects an uncaught exception escaping
the Loader+Reconciliation sequence: the except branch still writes one
`failed` record with zero rows.  Returns the session and the reported
success flag. -/
def processUserAcceptanceCsv (exc : Option (List Char)) (load : AccLoadOutcome)
    (raiseOn : Nat → Option (List Char)) (fetchFails : Bool)
    (userId batchId : Nat) (fileName : List Char) (s : Session) : Session × Bool :=
  match exc with
  | some _ =>
    let s1 := { s with current := { s.current with uploads := (s.current.uploads ++
        [(⟨userId, fileName, "Acceptance".data, 0, "failed".data⟩ : UploadRow)]) } }
    (s1.commit, false)
  | none =>
    let s1 :=
      if load.ok then
        ({ s with current := { s.current with
            accStaging := s.current.accStaging ++ load.stagedRows } }).commit
      else s.rollback
    let tr :=
      if load.ok then transformAndLoadAcc raiseOn fetchFails userId batchId s1
      else (s1, false)
    let s2 := tr.1
    let status :=
      if load.ok && tr.2 then "success".data
      else if load.stats.processed_rows > 0 then "partial".data
      else "failed".data
    let s3 := { s2 with current := { s2.current with uploads := (s2.current.uploads ++
        [(⟨userId, fileName, "Acceptance".data, load.stats.total_rows, status⟩ : UploadRow)]) } }
    (s3.commit, load.ok && tr.2)

/-- `process_user_csv` (po_processor.py): run the loader then, when it
succeeded, the PO reconciliation, and return the success flag of the
result dictionary.  The function writes no `UploadHistory` row on any
path. -/
def processUserCsv (exc : Option (List Char)) (load : POLoadOutcome)
    (raiseOn : Nat → Option (List Char)) (userId batchId now : Nat)
    (s : Session) : Session × Bool :=
  match exc with
  | some _ => (s, false)
  | none =>
    let s1 :=
      if load.ok then
        ({ s with current := { s.current with
            poStaging := s.current.poStaging ++ load.stagedRows } }).commit
      else s.rollback
    if !load.ok then (s1, false)
    else
      let tr := transformAndLoadPO raiseOn userId batchId now s1
      (tr.1, tr.2)

/-- Count of `acceptances` rows belonging to a tenant. -/
def countAcceptancesFor (d : DB) (u : Nat) : Nat :=
  (d.acceptances.filter (fun a => Value.pyEq (getAttr a ("user_id".data)) (.uuid u))).length

/-!
## Concrete scenarios
-/

/-- A staging row for PO `PO1` line `1` as an identical re-upload of an
already reconciled file would stage it. -/
def poStagingPO1 : POStagingRow :=
  { staging_id := 1, user_id := 7, batch_id := 3,
    po_number := some ("PO1".data), po_line_no := some ("1".data),
    unit_price := some ("1000.50".data), project_name := some ("IAM Tower".data) }

/-- The authoritative `PurchaseOrder` produced for that row by an
earlier reconciliation (inserted with surrogate id 100 at time 5): its
business fields carry exactly the coerced values of the staging row. -/
def existingPO1 : Attrs :=
  flushPoDefaults (createPoFromStaging (.uuid 7) poStagingPO1) 100 5

/-- Database before re-reconciling the identical batch: the existing
PO, its account, and the freshly staged identical row. -/
def dbReupload : DB :=
  { pos := [existingPO1], poStaging := [poStagingPO1],
    accounts := [⟨50, 7, "IAM Account".data, "IAM Tower".data, false⟩], nextId := 200 }

/-- Three valid staged PO rows; upserting the second one raises. -/
def poRowA : POStagingRow :=
  { staging_id := 1, user_id := 7, batch_id := 3,
    po_number := some ("POA".data), po_line_no := some ("1".data) }

def poRowB : POStagingRow :=
  { staging_id := 2, user_id := 7, batch_id := 3,
    po_number := some ("POB".data), po_line_no := some ("1".data) }

def poRowC : POStagingRow :=
  { staging_id := 3, user_id := 7, batch_id := 3,
    po_number := some ("POC".data), po_line_no := some ("1".data) }

/-- Database holding the three-row staging batch. -/
def dbThreeRows : DB :=
  { poStaging := [poRowA, poRowB, poRowC] }

/-- Exception environment in which upserting staging row 2 raises
`boom`. -/
def raiseOnRow2 : Nat → Option (List Char) :=
  fun sid => if sid == 2 then some ("boom".data) else none

/-- An acceptance staging row of the current batch. -/
def accRowNew : AccStagingRow :=
  { staging_id := 1, user_id := 7, batch_id := 3, acceptance_no := some ("A1".data) }

/-- Database with one pre-existing acceptance for tenant 7 (from an
earlier upload) and the newly staged row. -/
def dbAccPrior : DB :=
  { acceptances := [createAcceptanceFromStaging 7 { staging_id := 0, acceptance_no := some ("OLD".data) }],
    accStaging := [accRowNew] }

/-- A loader outcome in which one PO row was read, staged and counted
successfully. -/
def poLoadOne : POLoadOutcome :=
  { ok := true, stats := { total_rows := 1, processed_rows := 1 }, stagedRows := [poStagingPO1] }

/-!
## Supporting lemmas
-/

theorem parse_dateLoopE_ok (t : List Char) (fs : List (List Dir)) :
    parse_dateLoopE t fs =
      .ok ((fs.findSome? (fun f => strptimeModel f t)).map
        (fun dt => (⟨dt.year, dt.month, dt.day⟩ : PyDate))) := by
  induction fs with
  | nil => rfl
  | cons f fs ih =>
    unfold parse_dateLoopE strptimeE
    cases h : strptimeModel f t with
    | none => simp [List.findSome?, h, ih]
    | some dt => simp [List.findSome?, h]

/-!
## Claim theorems
-/

/-- C4: the four type coercers are total — for every input (null,
empty, whitespace, arbitrary garbage strings) the exception-level
models of `parse_decimal`, `parse_integer`, `parse_date` and
`safe_string_truncate` terminate in the `ok` state (no exception
escapes), returning exactly the null-on-unparsable value of the pure
functions. -/
theorem coercers_total (v : Option (List Char)) (n : Option Nat) :
    parse_decimalE v = .ok (parse_decimal v) ∧
    parse_integerE v = .ok (parse_integer v) ∧
    parse_dateE v = .ok (parse_date v) ∧
    safe_string_truncateE v n = .ok (safe_string_truncate v n) := by
  refine ⟨?_, ?_, ?_, rfl⟩
  · cases v with
    | none => rfl
    | some s =>
      cases hse : s == [] with
      | true => simp [parse_decimalE, parse_decimal, hse]
      | false =>
        cases h : decimalOfString (cleanDecimalInput s) <;>
          simp [parse_decimalE, parse_decimal, decimalCtorE, tryExceptO, hse, h]
  · cases v with
    | none => rfl
    | some s =>
      cases hse : s == [] with
      | true => simp [parse_integerE, parse_integer, hse]
      | false =>
        cases hf : floatOfString s with
        | none => simp [parse_integerE, parse_integer, floatCtorE, tryExceptO, hse, hf]
        | some f =>
          cases f with
          | fin m e =>
            by_cases he : 0 ≤ e <;>
              simp [parse_integerE, parse_integer, floatCtorE, tryExceptO, intOfFloat,
                hse, hf, he]
          | inf neg =>
            simp [parse_integerE, parse_integer, floatCtorE, tryExceptO, intOfFloat, hse, hf]
          | nan =>
            simp [parse_integerE, parse_integer, floatCtorE, tryExceptO, intOfFloat, hse, hf]
  · cases v with
    | none => rfl
    | some s =>
      cases hse : s == [] with
      | true => simp [parse_dateE, parse_date, hse]
      | false =>
        cases hst : strTrim s == [] with
        | true => simp [parse_dateE, parse_date, hse, hst]
        | false => simp [parse_dateE, parse_date, hse, hst, parse_dateLoopE_ok]

/-- C8 counterexample: the normalization does not collapse repeated
underscores — three internal spaces become two underscores, not one, so
the claimed collapse rule disagrees with the code on the header
`a   b`. -/
theorem normalize_column_counterexample :
    normalize_column_name ("a   b".data) = ("a__b".data) ∧
    containsSub ("__".data) (normalize_column_name ("a   b".data)) = true ∧
    ("a__b".data) ≠ ("a_b".data) := by
  decide

theorem replicate_succ_succ_underscore (n : Nat) :
    List.replicate (n + 2) '_' = '_' :: '_' :: List.replicate n '_' := by
  simp [List.replicate_succ]

theorem rdu_replicate (k : Nat) :
    replaceDoubleUnderscore (List.replicate k '_') = List.replicate ((k + 1) / 2) '_' := by
  induction k using Nat.strong_induction_on with
  | _ k ih =>
    match k with
    | 0 => rfl
    | 1 => rfl
    | (n + 2) =>
      have h := ih n (by omega)
      have h2 : (n + 2 + 1) / 2 = (n + 1) / 2 + 1 := by omega
      rw [replicate_succ_succ_underscore, h2, List.replicate_succ]
      show '_' :: replaceDoubleUnderscore (List.replicate n '_') = _
      rw [h]

/-- C8 amended: normalization lower-cases, trims, maps spaces and
parentheses to underscores, then performs a single left-to-right pass
replacing non-overlapping underscore pairs by one underscore (a run of
`k` underscores shrinks to `⌈k/2⌉`, not to one) and strips
leading/trailing underscores; and the column-mapped table has exactly
the canonical fields of the static mapping, in order, with a column of
nulls for each absent source header (unmapped source columns are
dropped). -/
theorem normalize_and_map_columns_amended :
    (∀ k, replaceDoubleUnderscore (List.replicate k '_') = List.replicate ((k + 1) / 2) '_') ∧
    (∀ (mapping : List (List Char × List Char)) (df : PyDF),
      ((map_csv_columns mapping df).cols.map Prod.fst) = mapping.map Prod.snd) ∧
    (∀ (mapping : List (List Char × List Char)) (df : PyDF) (csvCol dbField : List Char),
      (csvCol, dbField) ∈ mapping →
      dfLookup ⟨df.cols.map (fun p => (normalize_column_name p.1, p.2)), df.nrows⟩ csvCol = none →
      (dbField, List.replicate df.nrows none) ∈ (map_csv_columns mapping df).cols) ∧
    normalize_column_name ("  Item Description (Local)  ".data) = ("item_description_local".data) := by
  refine ⟨rdu_replicate, ?_, ?_, by decide⟩
  · intro mapping df
    simp [map_csv_columns, List.map_map, Function.comp]
  · intro mapping df csvCol dbField hmem hlook
    have : (fun (m : List Char × List Char) =>
        (m.2, match dfLookup ⟨df.cols.map (fun p => (normalize_column_name p.1, p.2)), df.nrows⟩ m.1 with
              | some c => c
              | none => List.replicate df.nrows none)) (csvCol, dbField) ∈
        (map_csv_columns mapping df).cols := by
      simp only [map_csv_columns]
      exact List.mem_map_of_mem _ hmem
    simpa [hlook] using this

theorem normalize_and_map_columns_amended_witness :
    (("po_no.".data, "po_number".data) ∈ [(("po_no.".data, "po_number".data))] ∧
      dfLookup ⟨(PyDF.cols ⟨[], 2⟩).map (fun p => (normalize_column_name p.1, p.2)), 2⟩
        ("po_no.".data) = none) ∧
    ("po_number".data, List.replicate 2 (none : Option (List Char))) ∈
      (map_csv_columns [(("po_no.".data, "po_number".data))] ⟨[], 2⟩).cols :=
  ⟨⟨by decide, by decide⟩,
    normalize_and_map_columns_amended.2.2.1 [(("po_no.".data, "po_number".data))] ⟨[], 2⟩
      ("po_no.".data) ("po_number".data) (by decide) (by decide)⟩

/-- C6 counterexample: a blank (whitespace-only) project name is not
normalized to the `Unknown Project` placeholder — `" "` is truthy, so
it survives the `or` and is stripped to the empty string, and the
account row is created and keyed with `""` as its project name. -/
theorem account_blank_name_counterexample :
    cleanProjectName (some (" ".data)) = [] ∧
    (getOrCreateAccountDB {} 1 (some (" ".data))).accounts =
      [⟨1, 1, "Other".data, [], true⟩] ∧
    ([] : List Char) ≠ ("Unknown Project".data) := by
  decide

/-- C6 amended: classification is a pure function of the project name
with the fixed first-match-wins substring rules (`iam` → IAM Account,
`orange` → Orange Account, `inwi` → INWI Account, default `Other`), a
created account needs review exactly when it is classified `Other`; a
null or *empty* project name is normalized to the `Unknown Project`
placeholder before classification and lookup, while any other name —
including whitespace-only names, which strip to the empty string — is
only trimmed. -/
theorem account_classification_amended :
    cleanProjectName none = ("Unknown Project".data) ∧
    cleanProjectName (some []) = ("Unknown Project".data) ∧
    (∀ s : List Char, s ≠ [] → cleanProjectName (some s) = strTrim s) ∧
    (∀ s : List Char, s ≠ [] → containsSub ("iam".data) (strLower s) = true →
      map_project_to_account_name (some s) = ("IAM Account".data)) ∧
    (∀ s : List Char, s ≠ [] → containsSub ("iam".data) (strLower s) = false →
      containsSub ("orange".data) (strLower s) = true →
      map_project_to_account_name (some s) = ("Orange Account".data)) ∧
    (∀ s : List Char, s ≠ [] → containsSub ("iam".data) (strLower s) = false →
      containsSub ("orange".data) (strLower s) = false →
      containsSub ("inwi".data) (strLower s) = true →
      map_project_to_account_name (some s) = ("INWI Account".data)) ∧
    (∀ s : List Char, containsSub ("iam".data) (strLower s) = false →
      containsSub ("orange".data) (strLower s) = false →
      containsSub ("inwi".data) (strLower s) = false →
      map_project_to_account_name (some s) = ("Other".data)) ∧
    (∀ (d : DB) (u : Nat) (p : Option (List Char)) (a : AccountRow),
      a ∈ (getOrCreateAccountDB d u p).accounts → a ∉ d.accounts →
      a.project_name = cleanProjectName p ∧
      a.account_name = map_project_to_account_name (some (cleanProjectName p)) ∧
      a.needs_review = (a.account_name == ("Other".data))) := by
  refine ⟨by decide, by decide, ?_, ?_, ?_, ?_, ?_, ?_⟩
  · intro s h
    simp [cleanProjectName, h]
  · intro s h h1
    simp [map_project_to_account_name, h, h1]
  · intro s h h1 h2
    simp [map_project_to_account_name, h, h1, h2]
  · intro s h h1 h2 h3
    simp [map_project_to_account_name, h, h1, h2, h3]
  · intro s h1 h2 h3
    by_cases h : s = []
    · subst h; rfl
    · simp [map_project_to_account_name, h, h1, h2, h3]
  · intro d u p a hmem hnot
    by_cases hq : (d.accounts.any
        (fun x => x.user_id == u && x.project_name == cleanProjectName p)) = true
    · rw [getOrCreateAccountDB, if_pos hq] at hmem
      exact absurd hmem hnot
    · rw [getOrCreateAccountDB, if_neg hq] at hmem
      rcases List.mem_append.mp hmem with h | h
      · exact absurd h hnot
      · rcases List.mem_singleton.mp h with rfl
        exact ⟨rfl, rfl, rfl⟩

theorem account_classification_amended_witness :
    cleanProjectName (some ("  IAM Tower  ".data)) = ("IAM Tower".data) ∧
    map_project_to_account_name (some ("IAM Tower".data)) = ("IAM Account".data) ∧
    map_project_to_account_name (some ("Unknown Project".data)) = ("Other".data) :=
  ⟨by rw [account_classification_amended.2.2.1 ("  IAM Tower  ".data) (by decide)]; decide,
    account_classification_amended.2.2.2.1 ("IAM Tower".data) (by decide) (by decide),
    account_classification_amended.2.2.2.2.2.2.1 ("Unknown Project".data)
      (by decide) (by decide) (by decide)⟩

/-- C9: account creation is idempotent per tenant and project name —
running the get-or-create step twice changes nothing the second time,
and starting from a state with no account for the pair, exactly one
account row for it exists afterwards. -/
theorem account_creation_idempotent (d : DB) (u : Nat) (p : Option (List Char)) :
    getOrCreateAccountDB (getOrCreateAccountDB d u p) u p = getOrCreateAccountDB d u p ∧
    (((d.accounts.filter
        (fun a => a.user_id == u && a.project_name == cleanProjectName p)).length = 0) →
      (((getOrCreateAccountDB d u p).accounts.filter
        (fun a => a.user_id == u && a.project_name == cleanProjectName p)).length = 1)) := by
  by_cases hq : (d.accounts.any
      (fun x => x.user_id == u && x.project_name == cleanProjectName p)) = true
  · have hinner : getOrCreateAccountDB d u p = d := by
      rw [getOrCreateAccountDB, if_pos hq]
    constructor
    · simp only [hinner]
    · intro hlen
      rcases List.any_eq_true.mp hq with ⟨x, hx, hpx⟩
      have : x ∈ d.accounts.filter
          (fun a => a.user_id == u && a.project_name == cleanProjectName p) :=
        List.mem_filter.mpr ⟨hx, hpx⟩
      rw [List.length_eq_zero.mp hlen] at this
      exact absurd this (List.not_mem_nil x)
  · have hrow : (fun (x : AccountRow) => x.user_id == u && x.project_name == cleanProjectName p)
        (⟨d.nextId, u, map_project_to_account_name (some (cleanProjectName p)),
          cleanProjectName p,
          map_project_to_account_name (some (cleanProjectName p)) == ("Other".data)⟩ :
          AccountRow) = true := by
      simp
    have haccounts : (getOrCreateAccountDB d u p).accounts =
        d.accounts ++ [⟨d.nextId, u, map_project_to_account_name (some (cleanProjectName p)),
          cleanProjectName p,
          map_project_to_account_name (some (cleanProjectName p)) == ("Other".data)⟩] := by
      rw [getOrCreateAccountDB, if_neg hq]
    have hcond : ((getOrCreateAccountDB d u p).accounts.any
        (fun a => a.user_id == u && a.project_name == cleanProjectName p)) = true := by
      rw [haccounts]
      simp [List.any_append, hrow]
    constructor
    · rw [getOrCreateAccountDB]
      rw [if_pos hcond]
    · intro hlen
      rw [haccounts]
      simp only [List.filter_append, List.length_append, List.length_eq_zero.mp hlen]
      simp [hrow]

theorem account_creation_idempotent_witness :
    (((getOrCreateAccountDB {} 1 (some ("Alpha".data))).accounts.filter
      (fun a => a.user_id == 1 && a.project_name == cleanProjectName (some ("Alpha".data)))).length
      = 1) :=
  (account_creation_idempotent {} 1 (some ("Alpha".data))).2 (by decide)

/-- C10: `parse_decimal` is not null-on-any-non-number — the strings
`NaN` and `Infinity` are accepted by the `Decimal` constructor, so the
coercer returns special non-null decimals, and those values flow
through `_create_po_from_staging` and
`_create_acceptance_from_staging` into the decimal money fields of the
authoritative records. -/
theorem parse_decimal_nan_flows :
    parse_decimal (some ("NaN".data)) = some Dec.nan ∧
    parse_decimal (some ("Infinity".data)) = some (Dec.inf false) ∧
    getAttr (createPoFromStaging (.uuid 7) { staging_id := 1, unit_price := some ("NaN".data) })
      ("unit_price".data) = .dec Dec.nan ∧
    getAttr (createPoFromStaging (.uuid 7) { staging_id := 1, line_amount := some ("Infinity".data) })
      ("line_amount".data) = .dec (Dec.inf false) ∧
    getAttr (createAcceptanceFromStaging 7 { staging_id := 1, unit_price := some ("NaN".data) })
      ("unit_price".data) = .dec Dec.nan := by
  decide

/-- C1 (code behavior at the failing input): re-reconciling a staging
row whose values are identical to the existing authoritative record
still writes an UPDATE audit entry, because
`_update_po_from_staging` unconditionally stamps `updated_at`, which is
one of the diffed table columns — so the changed-field list is
`[updated_at]` rather than empty and the no-op guard never fires. -/
theorem noop_update_still_logged :
    changedFields (getRecordDict existingPO1)
        (getRecordDict (updatePoFromStaging existingPO1 poStagingPO1 10)) =
      [("updated_at".data)] ∧
    (transformAndLoadPO (fun _ => none) 7 3 10 (sessionOf dbReupload)).1.committed.audits.map
        (fun a => (a.action, a.changed_fields)) =
      [(("UPDATE".data), some [("updated_at".data)])] := by
  set_option maxRecDepth 100000 in decide

/-- C5 (code behavior at the failing input): when upserting staging row
2 of the batch `[1, 2, 3]` raises, the handler's `rollback` also
discards the not-yet-committed work of row 1 — afterwards only row 3's
purchase order exists, row 2 is marked processed-and-invalid with the
error recorded, and row 1 is left unprocessed with its upsert lost. -/
theorem row_failure_discards_prior_rows :
    ((transformAndLoadPO raiseOnRow2 7 3 10 (sessionOf dbThreeRows)).1.committed.pos.map
        (fun p => getAttr p ("po_number".data)) = [Value.str ("POC".data)]) ∧
    ((transformAndLoadPO raiseOnRow2 7 3 10 (sessionOf dbThreeRows)).1.committed.poStaging.map
        (fun r => (r.staging_id, r.is_processed, r.is_valid, r.validation_errors)) =
      [(1, false, true, []), (2, true, false, [("boom".data)]), (3, true, true, [])]) := by
  set_option maxRecDepth 100000 in decide

theorem accRowStep_foldl (raiseOn : Nat → Option (List Char)) (u : Nat) :
    ∀ (rows : List AccStagingRow) (acc : Session),
      rows.foldl (accRowStep raiseOn u) acc =
        { acc with current := { acc.current with acceptances :=
            (acc.current.acceptances ++
              ((rows.filter (fun r => (raiseOn r.staging_id).isNone)).map
                (createAcceptanceFromStaging u))) } } := by
  intro rows
  induction rows with
  | nil => intro acc; simp
  | cons r rest ih =>
    intro acc
    rw [List.foldl_cons, ih]
    cases h : raiseOn r.staging_id with
    | some msg => simp [accRowStep, h, List.filter_cons]
    | none => simp [accRowStep, h, List.filter_cons]

theorem getAttr_createAcceptance_user (u : Nat) (st : AccStagingRow) :
    getAttr (createAcceptanceFromStaging u st) ("user_id".data) = .uuid u := rfl

theorem validAccStagingRows_delete (d : DB) (u u' b : Nat) :
    validAccStagingRows (deleteAcceptancesForUser d u') u b = validAccStagingRows d u b := rfl

/-- C2: acceptance reconciliation is a full replace — with no row-level
exception, the run reports success and the tenant ends up with exactly
one acceptance row per valid unprocessed staging row of the current
batch, whatever the tenant's previous acceptance rows were. -/
theorem acceptance_full_replace (s : Session) (u b : Nat) :
    (transformAndLoadAcc (fun _ => none) false u b s).2 = true ∧
    countAcceptancesFor ((transformAndLoadAcc (fun _ => none) false u b s).1).committed u =
      (validAccStagingRows s.current u b).length := by
  constructor
  · rfl
  · show countAcceptancesFor
      ((validAccStagingRows (deleteAcceptancesForUser s.current u) u b).foldl
        (accRowStep (fun _ => none) u)
        (Session.commit { s with current := deleteAcceptancesForUser s.current u })).commit.committed
      u = _
    rw [accRowStep_foldl, validAccStagingRows_delete]
    simp only [Session.commit, countAcceptancesFor, deleteAcceptancesForUser,
      List.filter_append]
    rw [List.filter_filter]
    have h1 : ∀ a : Attrs,
        (Value.pyEq (getAttr a ("user_id".data)) (.uuid u) &&
          !Value.pyEq (getAttr a ("user_id".data)) (.uuid u)) = false := by
      intro a; cases Value.pyEq (getAttr a ("user_id".data)) (.uuid u) <;> rfl
    simp only [h1, List.filter_false, List.nil_append]
    rw [List.filter_map]
    have h3 : ((fun a => Value.pyEq (getAttr a ("user_id".data)) (.uuid u)) ∘
        createAcceptanceFromStaging u) = fun _ => true := by
      funext st
      show Value.pyEq (getAttr (createAcceptanceFromStaging u st) ("user_id".data)) (.uuid u) = true
      rw [getAttr_createAcceptance_user]
      show (u == u) = true
      simp
    rw [h3]
    simp

/-- C7 counterexample: acceptance reconciliation does not perform a
single commit at the end — a successful run commits twice (once right
after the per-tenant delete, once at the end), and when a batch-level
error strikes after the delete, the claimed rollback cannot restore the
tenant's rows: the run returns false yet the tenant's previously
committed acceptance row is gone. -/
theorem acceptance_two_commits_counterexample :
    ((transformAndLoadAcc (fun _ => none) false 7 3 (sessionOf dbAccPrior)).1.commits = 2) ∧
    countAcceptancesFor dbAccPrior 7 = 1 ∧
    ((transformAndLoadAcc (fun _ => none) true 7 3 (sessionOf dbAccPrior)).2 = false) ∧
    (countAcceptancesFor
      ((transformAndLoadAcc (fun _ => none) true 7 3 (sessionOf dbAccPrior)).1).committed 7 = 0) := by
  set_option maxRecDepth 10000 in decide

/-- C7 amended: acceptance reconciliation commits twice — once
immediately after the per-tenant delete and once at the end of the
batch.  A per-row exception only causes that row to be skipped, without
halting the batch and without mutating any staging flags; a batch-level
error after the delete rolls back the uncommitted inserts and returns
false, but the already committed delete persists. -/
theorem acceptance_commit_discipline_amended (s : Session) (u b : Nat)
    (raiseOn : Nat → Option (List Char)) :
    ((transformAndLoadAcc raiseOn false u b s).1.commits = s.commits + 2) ∧
    ((transformAndLoadAcc raiseOn false u b s).2 = true) ∧
    ((transformAndLoadAcc raiseOn false u b s).1.committed.acceptances =
      (deleteAcceptancesForUser s.current u).acceptances ++
        ((validAccStagingRows s.current u b).filter (fun r => (raiseOn r.staging_id).isNone)).map
          (createAcceptanceFromStaging u)) ∧
    ((transformAndLoadAcc raiseOn false u b s).1.committed.accStaging = s.current.accStaging) ∧
    ((transformAndLoadAcc raiseOn true u b s).2 = false) ∧
    ((transformAndLoadAcc raiseOn true u b s).1.committed = deleteAcceptancesForUser s.current u) := by
  refine ⟨?_, rfl, ?_, ?_, rfl, rfl⟩
  · show ((validAccStagingRows (deleteAcceptancesForUser s.current u) u b).foldl
      (accRowStep raiseOn u)
      (Session.commit { s with current := deleteAcceptancesForUser s.current u })).commit.commits = _
    rw [accRowStep_foldl]
    rfl
  · show ((validAccStagingRows (deleteAcceptancesForUser s.current u) u b).foldl
      (accRowStep raiseOn u)
      (Session.commit { s with current := deleteAcceptancesForUser s.current u })).commit.committed.acceptances = _
    rw [accRowStep_foldl, validAccStagingRows_delete]
    rfl
  · show ((validAccStagingRows (deleteAcceptancesForUser s.current u) u b).foldl
      (accRowStep raiseOn u)
      (Session.commit { s with current := deleteAcceptancesForUser s.current u })).commit.committed.accStaging = _
    rw [accRowStep_foldl]
    rfl

theorem getOrCreateAccountDB_uploads (d : DB) (u : Nat) (p : Option (List Char)) :
    (getOrCreateAccountDB d u p).uploads = d.uploads := by
  rw [getOrCreateAccountDB]
  split <;> rfl

theorem updatePoStaging_uploads (d : DB) (sid : Nat) (f : POStagingRow → POStagingRow) :
    (updatePoStaging d sid f).uploads = d.uploads := rfl

theorem poProcessRow_uploads (u b now : Nat) (d : DB) (st : POStagingRow) :
    (poProcessRow u b now d st).uploads = d.uploads := by
  simp only [poProcessRow, updatePoStaging_uploads]
  split
  · split <;> simp [getOrCreateAccountDB_uploads]
  · simp [getOrCreateAccountDB_uploads]

theorem foldl_invariant {α β : Type} (f : β → α → β) (P : β → Prop)
    (h : ∀ x a, P x → P (f x a)) :
    ∀ (l : List α) (x : β), P x → P (l.foldl f x) := by
  intro l
  induction l with
  | nil => intro x hx; exact hx
  | cons a as ih => intro x hx; exact ih _ (h x a hx)

theorem poLoopStep_uploads (raiseOn : Nat → Option (List Char)) (u b now : Nat)
    (v : List UploadRow) (acc : Session) (sid : Nat)
    (h : acc.current.uploads = v ∧ acc.committed.uploads = v) :
    ((poLoopStep raiseOn u b now acc sid).current.uploads = v ∧
     (poLoopStep raiseOn u b now acc sid).committed.uploads = v) := by
  obtain ⟨h1, h2⟩ := h
  simp only [poLoopStep]
  cases raiseOn sid with
  | some msg =>
    exact ⟨h2, h2⟩
  | none =>
    cases hf : acc.current.poStaging.find? (fun r => r.staging_id == sid) with
    | some st =>
      simp only
      exact ⟨by simpa [poProcessRow_uploads] using h1, h2⟩
    | none => exact ⟨h1, h2⟩

theorem transformAndLoadPO_uploads (raiseOn : Nat → Option (List Char)) (u b now : Nat)
    (s : Session) (v : List UploadRow)
    (h1 : s.current.uploads = v) (h2 : s.committed.uploads = v) :
    ((transformAndLoadPO raiseOn u b now s).1.current.uploads = v ∧
     (transformAndLoadPO raiseOn u b now s).1.committed.uploads = v) := by
  have hinv := foldl_invariant (poLoopStep raiseOn u b now)
    (fun acc => acc.current.uploads = v ∧ acc.committed.uploads = v)
    (fun x a hx => poLoopStep_uploads raiseOn u b now v x a hx)
    ((validPoStagingRows s.current u b).map (·.staging_id)) s ⟨h1, h2⟩
  exact ⟨hinv.1, hinv.1⟩

theorem transformAndLoadAcc_uploads (raiseOn : Nat → Option (List Char)) (ff : Bool)
    (u b : Nat) (s : Session) :
    (transformAndLoadAcc raiseOn ff u b s).1.current.uploads = s.current.uploads ∧
    (transformAndLoadAcc raiseOn ff u b s).1.committed.uploads = s.current.uploads := by
  cases ff with
  | true => exact ⟨rfl, rfl⟩
  | false =>
    constructor
    · show ((validAccStagingRows (deleteAcceptancesForUser s.current u) u b).foldl
        (accRowStep raiseOn u)
        (Session.commit { s with current := deleteAcceptancesForUser s.current u })).commit.current.uploads = _
      rw [accRowStep_foldl]
      rfl
    · show ((validAccStagingRows (deleteAcceptancesForUser s.current u) u b).foldl
        (accRowStep raiseOn u)
        (Session.commit { s with current := deleteAcceptancesForUser s.current u })).commit.committed.uploads = _
      rw [accRowStep_foldl]
      rfl

/-- C3 counterexample: a PO upload attempt driven through the PO
orchestrator leaves no `UploadHistory` record at all — here a fully
successful run (load and reconcile both true) ends with zero uploads
rows, where the claim demands exactly one. -/
theorem po_upload_writes_no_history :
    ((processUserCsv none poLoadOne (fun _ => none) 7 3 10 (sessionOf {})).2 = true) ∧
    ((processUserCsv none poLoadOne (fun _ => none) 7 3 10
        (sessionOf {})).1.committed.uploads.length = 0) := by
  set_option maxRecDepth 100000 in decide

/-- C3 amended: only the Acceptance orchestrator records upload
history — it writes exactly one `UploadHistory` row per attempt, with
the file name, the `Acceptance` document type, the staged row count and
the derived status (`success` when load and reconcile both succeed,
`partial` when rows were processed despite a failure, `failed`
otherwise), and it still writes one `failed` row with zero rows when an
uncaught exception escapes the sequence; the PO orchestrator writes no
`UploadHistory` row on any path. -/
theorem upload_history_amended (load : AccLoadOutcome) (loadP : POLoadOutcome)
    (excMsg : List Char) (raiseOn : Nat → Option (List Char)) (ff : Bool)
    (u b now : Nat) (fn : List Char) (d : DB) :
    ((processUserAcceptanceCsv none load raiseOn ff u b fn (sessionOf d)).1.committed.uploads =
      d.uploads ++ [⟨u, fn, "Acceptance".data, load.stats.total_rows,
        (if load.ok && !ff then "success".data
         else if load.stats.processed_rows > 0 then "partial".data
         else "failed".data)⟩]) ∧
    ((processUserAcceptanceCsv (some excMsg) load raiseOn ff u b fn
        (sessionOf d)).1.committed.uploads =
      d.uploads ++ [⟨u, fn, "Acceptance".data, 0, "failed".data⟩]) ∧
    ((processUserCsv none loadP raiseOn u b now (sessionOf d)).1.committed.uploads = d.uploads) ∧
    ((processUserCsv (some excMsg) loadP raiseOn u b now (sessionOf d)).1.committed.uploads =
      d.uploads) := by
  refine ⟨?_, rfl, ?_, rfl⟩
  · cases hok : load.ok with
    | false =>
      simp only [processUserAcceptanceCsv, hok, Bool.false_and, if_false, Bool.false_eq_true]
      rfl
    | true =>
      simp only [processUserAcceptanceCsv, hok, Bool.true_and, if_true]
      have hu := (transformAndLoadAcc_uploads raiseOn ff u b
        (Session.commit { sessionOf d with current := { (sessionOf d).current with
          accStaging := ((sessionOf d).current.accStaging ++ load.stagedRows) } })).1
      cases ff with
      | false =>
        show ((transformAndLoadAcc raiseOn false u b _).1.current.uploads ++ _) = _
        rw [hu]
        rfl
      | true =>
        show ((transformAndLoadAcc raiseOn true u b _).1.current.uploads ++ _) = _
        rw [hu]
        rfl
  · cases hok : loadP.ok with
    | false =>
      simp only [processUserCsv, hok, Bool.not_false, if_true]
      rfl
    | true =>
      simp only [processUserCsv, hok, Bool.not_true, Bool.false_eq_true, if_false]
      exact (transformAndLoadPO_uploads raiseOn u b now
        (Session.commit { sessionOf d with current := { (sessionOf d).current with
          poStaging := ((sessionOf d).current.poStaging ++ loadP.stagedRows) } })
        d.uploads rfl rfl).2
